import Mathlib

/-!
Verification development for the color-palette generator's color-science core.
The TypeScript sources are shallowly embedded: pure arithmetic is translated
directly (JavaScript numbers become rationals, Math.round and Math.floor become
explicit integer roundings), thrown exceptions become Except values, and the
external chroma-js primitives the code calls are abstracted as a record of
operations so that every statement quantifies over their behaviour.
-/

namespace ColorSpec

/-- Lowercase hexadecimal digit character for a value below 16, as produced by
JavaScript toString(16) inside the chroma-js hex serializer: 0-9 map onto the
digit characters and 10-15 onto the letters starting at the lowercase a. -/
def hexDigitChar (n : Nat) : Char :=
  if n < 10 then Char.ofNat (Char.toNat '0' + n)
  else Char.ofNat (Char.toNat 'a' + (n - 10))

/-- Two lowercase hex digits of a channel value, clamped to 255 the way
chroma-js clips channels when serializing. -/
def byteHexChars (n : Nat) : List Char :=
  [hexDigitChar (min n 255 / 16), hexDigitChar (min n 255 % 16)]

/-- rgbToHex from colorUtils: chroma(r, g, b).hex(), a hash sign followed by
six lowercase hexadecimal digits. -/
def rgbToHex (r g b : Nat) : String :=
  String.mk ('#' :: (byteHexChars r ++ byteHexChars g ++ byteHexChars b))

/-- Value of a single hexadecimal digit character, accepting both letter cases
as the chroma-js parser does; none for a character outside the three ranges of
hexadecimal digits. -/
def parseHexDigit (c : Char) : Option Nat :=
  if '0' ≤ c ∧ c ≤ '9' then some (Char.toNat c - Char.toNat '0')
  else if 'a' ≤ c ∧ c ≤ 'f' then some (Char.toNat c - Char.toNat 'a' + 10)
  else if 'A' ≤ c ∧ c ≤ 'F' then some (Char.toNat c - Char.toNat 'A' + 10)
  else none

/-- hexToRgb from colorUtils: chroma(hex).rgb() followed by Math.round, which
is the identity on the integer channels chroma returns. The hash sign is
optional, six hex digits give the three channels, the three-digit shorthand
doubles each nibble, and anything else makes the chroma constructor throw,
modelled as none. -/
def hexToRgb (s : String) : Option (Nat × Nat × Nat) :=
  let cs := s.data
  let ds := if cs.head? = some '#' then cs.tail else cs
  match ds with
  | [c1, c2, c3, c4, c5, c6] => do
    let h1 ← parseHexDigit c1
    let h2 ← parseHexDigit c2
    let h3 ← parseHexDigit c3
    let h4 ← parseHexDigit c4
    let h5 ← parseHexDigit c5
    let h6 ← parseHexDigit c6
    some (16 * h1 + h2, 16 * h3 + h4, 16 * h5 + h6)
  | [c1, c2, c3] => do
    let h1 ← parseHexDigit c1
    let h2 ← parseHexDigit c2
    let h3 ← parseHexDigit c3
    some (17 * h1, 17 * h2, 17 * h3)
  | _ => none

/-- JavaScript Math.round: round half toward positive infinity. -/
def jsRound (q : ℚ) : ℤ := ⌊q + 1/2⌋

/-- Math.round(x * 100) / 100, the two-decimal rounding the source applies to
every reported ratio and distance. -/
def round2 (q : ℚ) : ℚ := (jsRound (q * 100) : ℚ) / 100

/-- Truncated integer part, the semantics of JavaScript division feeding %. -/
def qtrunc (q : ℚ) : ℤ := if 0 ≤ q then ⌊q⌋ else ⌈q⌉

/-- JavaScript remainder a % b (sign of the dividend, truncated quotient). -/
def jsMod (a b : ℚ) : ℚ := a - b * (qtrunc (a / b) : ℚ)

/-- JavaScript x || d on a possibly-undefined string: the default replaces
both undefined and the falsy empty string. -/
def jsOrDefault (x : Option String) (d : String) : String :=
  match x with
  | none => d
  | some s => if s = "" then d else s

/-- Abstract interface to the chroma-js primitives the source calls, together
with the random id draw. Fields returning Option use none where the
JavaScript call throws or yields a non-finite number. Statements quantify over
this record, so they hold for every behaviour of the external library. -/
structure Chroma where
  /-- chroma.valid c: whether chroma(c) parses; the chroma constructor throws
  exactly when this is false. -/
  valid : String → Bool
  /-- chroma.deltaE on two parseable colors; none models NaN or Infinity. -/
  deltaE : String → String → Option ℚ
  /-- value of the Euclidean-RGB fallback expression of the catch branches
  (its real square root is not rational, so the value is abstract). -/
  simpleDiff : String → String → ℚ
  /-- chroma.contrast a b; none models a throw or a non-finite result. -/
  contrast : String → String → Option ℚ
  /-- chroma(c).brighten(0.3).hex(); none models a throw. -/
  brighten : String → Option String
  /-- chroma(c).darken(0.3).hex(); none models a throw. -/
  darken : String → Option String
  /-- rounded rgb channels of chroma.mix(a, b, t). -/
  mixRgb : String → String → ℚ → Nat × Nat × Nat
  /-- chroma(c).hsl(): hue (none models NaN on achromatic input), saturation
  and lightness fractions. -/
  hslOf : String → Option ℚ × ℚ × ℚ
  /-- chroma(r, g, b).hsl() for integer channels. -/
  hslOfRgb : Nat → Nat → Nat → Option ℚ × ℚ × ℚ
  /-- chroma.hsl(h, s, l).hex(). -/
  hslToHex : ℚ → ℚ → ℚ → String
  /-- id drawn by generateColorId (Math.random based). -/
  freshId : String

/-- chroma.mix(a, b, t).hex(): the hex serialization of the rounded mixed
channels, shared by every mixing call site of the source. -/
def Chroma.mixHex (ops : Chroma) (a b : String) (t : ℚ) : String :=
  let rgb := ops.mixRgb a b t
  rgbToHex rgb.1 rgb.2.1 rgb.2.2

/-- ColorInfo record of types/color: hex string, rgb and hsl components, display
name and generated id. -/
structure ColorInfo where
  hex : String
  rgb : Nat × Nat × Nat
  hsl : ℚ × ℚ × ℚ
  name : String
  id : String
deriving DecidableEq

/-- MixedColor of types/color: a ColorInfo (built by spread in the source,
here the info field) extended with blend provenance. -/
structure MixedColor where
  info : ColorInfo
  parentColors : List String
  ratio : List ℚ
deriving DecidableEq

/-- rgbToHsl from colorUtils: chroma hsl with the hue defaulted to 0 and the
three components rounded (hue to degrees, saturation and lightness to whole
percent). -/
def rgbToHsl (ops : Chroma) (r g b : Nat) : ℚ × ℚ × ℚ :=
  let hsl := ops.hslOfRgb r g b
  ((jsRound (hsl.1.getD 0) : ℚ), (jsRound (hsl.2.1 * 100) : ℚ), (jsRound (hsl.2.2 * 100) : ℚ))

/-- Fixed named-color table of getColorName in colorUtils. -/
def colorNameTable : List (String × String) :=
  [("#FF0000", "レッド"), ("#00FF00", "グリーン"), ("#0000FF", "ブルー"),
   ("#FFFF00", "イエロー"), ("#FF00FF", "マゼンタ"), ("#00FFFF", "シアン"),
   ("#000000", "ブラック"), ("#FFFFFF", "ホワイト"), ("#808080", "グレー"),
   ("#FFA500", "オレンジ"), ("#800080", "パープル"), ("#FFC0CB", "ピンク"),
   ("#A52A2A", "ブラウン"), ("#008000", "ダークグリーン"), ("#000080", "ネイビー")]

/-- toUpperCase on an ASCII hex string, character by character. -/
def upperHex (s : String) : String := String.mk (s.data.map Char.toUpper)

/-- getColorName from colorUtils: exact lookup in the uppercased table first,
then classification of the chroma hsl of the input (hue defaulted to 0). On a
string the chroma constructor rejects the source would throw; the abstract
hslOf field supplies a value there, and no call site reaches that case. -/
def getColorName (ops : Chroma) (hex : String) : String :=
  match colorNameTable.lookup (upperHex hex) with
  | some n => n
  | none =>
    let hsl := ops.hslOf hex
    let h := hsl.1.getD 0
    let s := hsl.2.1
    let l := hsl.2.2
    if s < 1/10 then
      if l < 1/5 then "ダークグレー"
      else if l < 1/2 then "グレー"
      else if l < 4/5 then "ライトグレー"
      else "ホワイト"
    else if l < 3/20 then "ダーク"
    else if 17/20 < l then "ライト"
    else if h < 15 ∨ 345 < h then "レッド系"
    else if h < 45 then "オレンジ系"
    else if h < 75 then "イエロー系"
    else if h < 150 then "グリーン系"
    else if h < 180 then "シアン系"
    else if h < 250 then "ブルー系"
    else if h < 290 then "パープル系"
    else if h < 345 then "ピンク系"
    else "カスタム"

/-- createColorInfo from colorUtils; when no id is supplied the source draws a
random one, modelled by the freshId field. -/
def createColorInfo (ops : Chroma) (r g b : Nat) (id : Option String) : ColorInfo :=
  let hex := rgbToHex r g b
  { hex := hex
    rgb := (r, g, b)
    hsl := rgbToHsl ops r g b
    name := getColorName ops hex
    id := id.getD ops.freshId }

/-- mixColors from colorUtils: chroma.mix of the two hex strings, rounded
channels rebuilt into a ColorInfo, provenance of both parents and the explicit
weight pair. -/
def mixColors (ops : Chroma) (c1 c2 : ColorInfo) (t : ℚ) : MixedColor :=
  let rgb := ops.mixRgb c1.hex c2.hex t
  let info := createColorInfo ops rgb.1 rgb.2.1 rgb.2.2 none
  { info := { info with name := c1.name ++ " × " ++ c2.name }
    parentColors := [c1.id, c2.id]
    ratio := [1 - t, t] }

/-- The sequential mixing loop of mixMultipleColors: fold chroma.mix over the
remaining hex strings, the i-th added color entering at weight 1/(i+1). -/
def mixChain (ops : Chroma) : String → List String → Nat → String
  | cur, [], _ => cur
  | cur, h :: t, i => mixChain ops (ops.mixHex cur h (1 / ((i : ℚ) + 1))) t (i + 1)

/-- mixMultipleColors from colorUtils: throws for fewer than two colors
(modelled as Except.error carrying the thrown message), delegates to mixColors
at the default ratio 0.5 for exactly two, and otherwise folds chroma.mix over
the list, re-parses the final hex, and attaches all parent ids with the uniform
ratio array. -/
def mixMultipleColors (ops : Chroma) (colors : List ColorInfo) : Except String MixedColor :=
  match colors with
  | [] => .error "2色以上の色が必要です"
  | [_] => .error "2色以上の色が必要です"
  | [c1, c2] => .ok (mixColors ops c1 c2 (1/2))
  | c1 :: rest =>
    let currentMix := mixChain ops c1.hex (rest.map ColorInfo.hex) 1
    let rgb := (hexToRgb currentMix).getD (0, 0, 0)
    let info := createColorInfo ops rgb.1 rgb.2.1 rgb.2.2 none
    let names := colors.map ColorInfo.name
    .ok { info := { info with name := "混合色: " ++ String.intercalate " × " names }
          parentColors := colors.map ColorInfo.id
          ratio := colors.map (fun _ => 1 / ((colors.length : ℚ))) }

/-- Modelled from the spec: the sequential pairwise reduction it describes for
mixMany, blending color 1 with color 2 at weight 1/2, that result with color 3
at weight 1/3, and so on; the k-th blended color enters at weight 1/k. Stated
independently of mixMultipleColors for comparison. -/
def specBlendGo (ops : Chroma) : String → List ColorInfo → Nat → String
  | cur, [], _ => cur
  | cur, d :: ds, k => specBlendGo ops (ops.mixHex cur d.hex (1 / (k : ℚ))) ds (k + 1)

/-- Modelled from the spec: sequential reduction of a head color and the list
of remaining colors, the second color entering at weight 1/2. -/
def specSequentialBlend (ops : Chroma) (c : ColorInfo) (rest : List ColorInfo) : String :=
  specBlendGo ops c.hex rest 2

/-- One animation keyframe: hex color and the stored (unjittered) progress. -/
structure MixFrame where
  hex : String
  progress : ℚ
deriving DecidableEq

/-- getMixedColorAtProgress from colorUtils. Call sites guarantee at least
three colors; list reads use the neutral default where the source would index
past the array, and the floor of the stage is taken on a nonnegative value in
every reachable call. -/
def getMixedColorAtProgress (ops : Chroma) (colors : List ColorInfo) (t : ℚ) : String :=
  let hexes := colors.map ColorInfo.hex
  if t ≤ 0 then hexes.getD 0 "#000000"
  else if 1 ≤ t then mixChain ops (hexes.getD 0 "#000000") (hexes.drop 1) 1
  else
    let n := colors.length
    let currentStage := t * ((n : ℚ) - 1)
    let stageIndex := (⌊currentStage⌋).toNat
    let stageProgress := currentStage - (stageIndex : ℚ)
    if stageIndex = 0 then
      ops.mixHex (hexes.getD 0 "#000000") (hexes.getD 1 "#000000") stageProgress
    else
      let currentMix := mixChain ops (hexes.getD 0 "#000000") ((hexes.drop 1).take stageIndex) 1
      if stageIndex + 1 < n then
        ops.mixHex currentMix (hexes.getD (stageIndex + 1) "#000000")
          (stageProgress / ((stageIndex : ℚ) + 2))
      else currentMix

/-- The color displayed at a given progress value: the branch on the number of
colors, factored out of the frame loop of generateColorMixingAnimation. -/
def colorAtProgress (ops : Chroma) (colors : List ColorInfo) (t : ℚ) : String :=
  if colors.length = 2 then
    ops.mixHex ((colors.map ColorInfo.hex).getD 0 "#000000")
      ((colors.map ColorInfo.hex).getD 1 "#000000") t
  else getMixedColorAtProgress ops colors t

/-- generateColorMixingAnimation from colorUtils; rand i models the single
Math.random() draw of frame i. With fewer than two colors it returns a single
frame instead of throwing; otherwise each of the steps+1 frames stores the
exact progress i/steps while its color is computed at the jittered, clamped
progress. -/
def generateColorMixingAnimation (ops : Chroma) (rand : Nat → ℚ)
    (colors : List ColorInfo) (steps : Nat) : List MixFrame :=
  if colors.length < 2 then
    [{ hex := jsOrDefault (colors.head?.map ColorInfo.hex) "#000000", progress := 1 }]
  else
    (List.range (steps + 1)).map (fun (i : Nat) =>
      let progress : ℚ := (i : ℚ) / (steps : ℚ)
      let jitter := (rand i - 1/2) * (1/10)
      let adjustedProgress := max 0 (min 1 (progress + jitter))
      { hex := colorAtProgress ops colors adjustedProgress, progress := progress })

/-- Harmony sets returned by calculateAdvancedHarmony. -/
structure HarmonySet where
  complementary : List String
  triadic : List String
  tetradic : List String
  analogous : List String
  splitComplementary : List String
deriving DecidableEq

/-- calculateAdvancedHarmony from advancedColorUtils. Note the JavaScript
defaults of the source: hsl[0] || 0 turns a NaN hue into 0, while
hsl[1] || 0.5 and hsl[2] || 0.5 replace a zero saturation or lightness
by 0.5 before the rotations are taken. -/
def calculateAdvancedHarmony (ops : Chroma) (baseColor : String) : HarmonySet :=
  let hsl := ops.hslOf baseColor
  let h := hsl.1.getD 0
  let s := if hsl.2.1 = 0 then 1/2 else hsl.2.1
  let l := if hsl.2.2 = 0 then 1/2 else hsl.2.2
  { complementary := [ops.hslToHex (jsMod (h + 180) 360) s l]
    triadic := [ops.hslToHex (jsMod (h + 120) 360) s l,
                ops.hslToHex (jsMod (h + 240) 360) s l]
    tetradic := [ops.hslToHex (jsMod (h + 90) 360) s l,
                 ops.hslToHex (jsMod (h + 180) 360) s l,
                 ops.hslToHex (jsMod (h + 270) 360) s l]
    analogous := [ops.hslToHex (jsMod (h - 30 + 360) 360) s l,
                  ops.hslToHex (jsMod (h + 30) 360) s l]
    splitComplementary := [ops.hslToHex (jsMod (h + 150) 360) s l,
                           ops.hslToHex (jsMod (h + 210) 360) s l] }

/-- Parsing step of the chroma constructor: it throws exactly on a string
chroma.valid rejects. -/
def chromaParse (ops : Chroma) (c : String) : Except Unit Unit :=
  if ops.valid c then .ok () else .error ()

/-- Try-block body of calculateDeltaE2000; error models a thrown exception of
the two chroma constructor calls at the top of the function. -/
def deltaE2000Body (ops : Chroma) (c1 c2 : String) : Except Unit ℚ :=
  match chromaParse ops c1, chromaParse ops c2 with
  | .ok _, .ok _ =>
    if !(ops.valid c1 && ops.valid c2) then
      .ok 100
    else
      match ops.deltaE c1 c2 with
      | none => .ok 100
      | some d => .ok (round2 d)
  | _, _ => .error ()

/-- Catch-block fallback of both Delta E functions: the chroma constructors
run again, so a malformed input throws again; on parseable inputs the simple
Euclidean RGB distance is rounded to two decimals, after the optional 0.95
factor supplied by the caller. -/
def deltaEFallback (ops : Chroma) (c1 c2 : String) (factor : ℚ) : Except Unit ℚ :=
  match chromaParse ops c1, chromaParse ops c2 with
  | .ok _, .ok _ => .ok (round2 (ops.simpleDiff c1 c2 * factor))
  | _, _ => .error ()

/-- calculateDeltaE2000 from advancedColorUtils: base chroma Delta E rounded to
two decimals, the penalty value 100 on an invalid color or non-finite result,
and the double catch ladder ending in 100. -/
def calculateDeltaE2000 (ops : Chroma) (c1 c2 : String) : ℚ :=
  match deltaE2000Body ops c1 c2 with
  | .ok v => v
  | .error _ =>
    match deltaEFallback ops c1 c2 1 with
    | .ok v => v
    | .error _ => 100

/-- Try-block body of calculateDeltaE94: the base chroma Delta E scaled by the
fixed 0.95 correction before the two-decimal rounding. -/
def deltaE94Body (ops : Chroma) (c1 c2 : String) : Except Unit ℚ :=
  match chromaParse ops c1, chromaParse ops c2 with
  | .ok _, .ok _ =>
    if !(ops.valid c1 && ops.valid c2) then
      .ok 100
    else
      match ops.deltaE c1 c2 with
      | none => .ok 100
      | some d => .ok (round2 (d * (19/20)))
  | _, _ => .error ()

/-- calculateDeltaE94 from advancedColorUtils. -/
def calculateDeltaE94 (ops : Chroma) (c1 c2 : String) : ℚ :=
  match deltaE94Body ops c1 c2 with
  | .ok v => v
  | .error _ =>
    match deltaEFallback ops c1 c2 (19/20) with
    | .ok v => v
    | .error _ => 100

/-- WCAGResult of types/advanced; the two levels are (normal, large) pairs and
suggestions is the (lightVersion, darkVersion) pair. -/
structure WCAGResult where
  foreground : String
  background : String
  contrastRatio : ℚ
  aaLevel : Bool × Bool
  aaaLevel : Bool × Bool
  suggestions : String × String
deriving DecidableEq

/-- createEmptyWCAGResult from advancedColorUtils: the safe degenerate result
with the minimal ratio 1.0, all compliance flags false and the unchanged
foreground as both suggestions. -/
def createEmptyWCAGResult (fg bg : String) : WCAGResult :=
  { foreground := fg
    background := bg
    contrastRatio := 1
    aaLevel := (false, false)
    aaaLevel := (false, false)
    suggestions := (fg, fg) }

/-- One bounded search loop of generateWCAGSuggestions. The fuel argument is
the remaining allowance against maxIterations = 20 and iters counts performed
updates; every break of the source (step throwing, non-finite or non-improving
contrast, ratio above 21) returns the current state. -/
def wcagLoop (contrastFn : String → Option ℚ) (stepFn : String → Option String) :
    Nat → String → ℚ → Nat → String × ℚ × Nat
  | 0, cur, r, iters => (cur, r, iters)
  | fuel + 1, cur, r, iters =>
    if r < 9/2 then
      match stepFn cur with
      | none => (cur, r, iters)
      | some newColor =>
        match contrastFn newColor with
        | none => (cur, r, iters)
        | some newRatio =>
          if newRatio ≤ r then (cur, r, iters)
          else if 21 < newRatio then (newColor, newRatio, iters + 1)
          else wcagLoop contrastFn stepFn fuel newColor newRatio (iters + 1)
    else (cur, r, iters)

/-- generateWCAGSuggestions from advancedColorUtils: the brighten search and
the darken search, both starting from the foreground at the current ratio and
both bounded by 20 iterations. -/
def generateWCAGSuggestions (ops : Chroma) (fg bg : String) (currentRatio : ℚ) :
    String × String :=
  let light := wcagLoop (fun c => ops.contrast c bg) ops.brighten 20 fg currentRatio 0
  let dark := wcagLoop (fun c => ops.contrast c bg) ops.darken 20 fg currentRatio 0
  (light.1, dark.1)

/-- Try-block body of checkWCAGCompliance; error models a thrown exception of
the chroma constructors. -/
def checkWCAGBody (ops : Chroma) (fg bg : String) : Except Unit WCAGResult :=
  match chromaParse ops fg, chromaParse ops bg with
  | .ok _, .ok _ =>
    if !(ops.valid fg && ops.valid bg) then
      .ok (createEmptyWCAGResult fg bg)
    else
      match ops.contrast fg bg with
      | none => .ok (createEmptyWCAGResult fg bg)
      | some cr =>
        let roundedRatio := round2 cr
        .ok { foreground := fg
              background := bg
              contrastRatio := roundedRatio
              aaLevel := (decide (9/2 ≤ roundedRatio), decide (3 ≤ roundedRatio))
              aaaLevel := (decide (7 ≤ roundedRatio), decide (9/2 ≤ roundedRatio))
              suggestions := generateWCAGSuggestions ops fg bg roundedRatio }
  | _, _ => .error ()

/-- checkWCAGCompliance from advancedColorUtils: the guarded computation with
the degenerate result on any caught exception. -/
def checkWCAGCompliance (ops : Chroma) (fg bg : String) : WCAGResult :=
  match checkWCAGBody ops fg bg with
  | .ok res => res
  | .error _ => createEmptyWCAGResult fg bg

/-- Concrete chroma behaviour used to instantiate universally quantified
statements on sample inputs. -/
def sampleChroma : Chroma :=
  { valid := fun _ => true
    deltaE := fun _ _ => some 0
    simpleDiff := fun _ _ => 0
    contrast := fun _ _ => some 1
    brighten := fun s => some s
    darken := fun s => some s
    mixRgb := fun _ _ _ => (1, 2, 3)
    hslOf := fun _ => (some 0, 1/2, 1/2)
    hslOfRgb := fun _ _ _ => (some 0, 1/2, 1/2)
    hslToHex := fun _ _ _ => "#000000"
    freshId := "id0" }

/-- Chroma behaviour that rejects every color string. -/
def invalidChroma : Chroma :=
  { sampleChroma with valid := fun _ => false }

def colA : ColorInfo :=
  { hex := "#112233", rgb := (17, 34, 51), hsl := (0, 0, 0), name := "A", id := "a1" }

def colB : ColorInfo :=
  { hex := "#445566", rgb := (68, 85, 102), hsl := (0, 0, 0), name := "B", id := "b1" }

def colC : ColorInfo :=
  { hex := "#778899", rgb := (119, 136, 153), hsl := (0, 0, 0), name := "C", id := "c1" }

/-- Chroma behaviour exhibiting the rounding collapse of the Delta E pair:
base distances 0.104 and 0.106 in the hundredths gap where the 2000 variant
still separates but the 0.95-scaled variant rounds to the same value. -/
def cexChroma : Chroma :=
  { sampleChroma with deltaE := fun a _ => if a = "a" then some (13/125) else some (53/500) }

/-- Chroma behaviour of an achromatic input: hue NaN, saturation 0, lightness
about 0.502 as chroma reports for the mid gray, with a hex encoder separating
zero from nonzero saturation. -/
def grayChroma : Chroma :=
  { sampleChroma with
    hslOf := fun _ => (none, 0, 251/500)
    hslToHex := fun _ s _ => if s = 0 then "s0" else "sPos" }

/-- Chroma behaviour whose mix records the requested weight in the red channel,
separating blends taken at different progress values. -/
def animChroma : Chroma :=
  { sampleChroma with mixRgb := fun _ _ t => ((⌊t * 100⌋).toNat, 0, 0) }

def emptyHexColor : ColorInfo :=
  { hex := "", rgb := (0, 0, 0), hsl := (0, 0, 0), name := "empty", id := "e1" }

theorem parseHexDigit_hexDigitChar : ∀ n, n < 16 → parseHexDigit (hexDigitChar n) = some n := by
  decide

theorem hexToRgb_rgbToHex (r g b : Nat) :
    hexToRgb (rgbToHex r g b) = some (min r 255, min g 255, min b 255) := by
  have hdiv : ∀ n : Nat, min n 255 / 16 < 16 := by
    intro n
    have h1 : min n 255 ≤ 255 := Nat.min_le_right n 255
    omega
  have hmod : ∀ n : Nat, min n 255 % 16 < 16 := by
    intro n
    exact Nat.mod_lt _ (by norm_num)
  have hparse : ∀ n : Nat,
      parseHexDigit (hexDigitChar (min n 255 / 16)) = some (min n 255 / 16) ∧
      parseHexDigit (hexDigitChar (min n 255 % 16)) = some (min n 255 % 16) :=
    fun n => ⟨parseHexDigit_hexDigitChar _ (hdiv n), parseHexDigit_hexDigitChar _ (hmod n)⟩
  have hval : ∀ n : Nat, 16 * (min n 255 / 16) + min n 255 % 16 = min n 255 := by
    intro n
    omega
  simp only [hexToRgb, rgbToHex, byteHexChars, String.data]
  simp only [List.cons_append, List.head?, List.tail, ite_true, Option.some.injEq]
  simp [hparse r, hparse g, hparse b, hval r, hval g, hval b]


/-- C5: for every RGB triple of integers in [0,255], hexToRgb inverts rgbToHex
exactly, with no tolerance. -/
theorem hexToRgb_roundtrip (r g b : Nat) (hr : r ≤ 255) (hg : g ≤ 255) (hb : b ≤ 255) :
    hexToRgb (rgbToHex r g b) = some (r, g, b) := by
  have h := hexToRgb_rgbToHex r g b
  rwa [Nat.min_eq_left hr, Nat.min_eq_left hg, Nat.min_eq_left hb] at h

theorem hexToRgb_roundtrip_witness :
    (255 : Nat) ≤ 255 ∧ (128 : Nat) ≤ 255 ∧ (7 : Nat) ≤ 255 ∧
      hexToRgb (rgbToHex 255 128 7) = some (255, 128, 7) :=
  ⟨by decide, by decide, by decide,
    hexToRgb_roundtrip 255 128 7 (by decide) (by decide) (by decide)⟩

/-- C8 counterexample: rgbToHex serializes through chroma in lowercase, so the
pure-red hex string is not the uppercase "#FF0000" the claim states. -/
theorem rgbToHex_red_uppercase_cex : rgbToHex 255 0 0 ≠ "#FF0000" := by decide

/-- C8 amended: rgbToHex(255,0,0) is the lowercase "#ff0000", and classifying
that hex with getColorName still lands in the red entry of the fixed table
(the lookup uppercases its input), as does the uppercase spelling. -/
theorem rgbToHex_red_classification (ops : Chroma) :
    rgbToHex 255 0 0 = "#ff0000" ∧ getColorName ops "#ff0000" = "レッド" ∧
      getColorName ops "#FF0000" = "レッド" := by
  refine ⟨by decide, ?_, ?_⟩ <;> rfl

/-- C4: mixMultipleColors fails with the insufficient-colors error exactly for
input lists of fewer than two colors; with two or more it never produces that
error. -/
theorem mixMultipleColors_error_iff (ops : Chroma) (colors : List ColorInfo) :
    mixMultipleColors ops colors = .error "2色以上の色が必要です" ↔ colors.length < 2 := by
  match colors with
  | [] => simp [mixMultipleColors]
  | [c] => simp [mixMultipleColors]
  | [c1, c2] => simp [mixMultipleColors]
  | c1 :: c2 :: c3 :: t => simp [mixMultipleColors]

theorem rgbToHex_clamp (x y z : Nat) :
    rgbToHex (min x 255) (min y 255) (min z 255) = rgbToHex x y z := by
  have h : ∀ n : Nat, min (min n 255) 255 = min n 255 := fun n => by omega
  simp [rgbToHex, byteHexChars, h]

theorem mixChain_eq_specBlendGo (ops : Chroma) (rest : List ColorInfo) :
    ∀ (cur : String) (i : Nat),
      mixChain ops cur (rest.map ColorInfo.hex) i = specBlendGo ops cur rest (i + 1) := by
  induction rest with
  | nil => intro cur i; rfl
  | cons d ds ih =>
    intro cur i
    simp only [List.map_cons, mixChain, specBlendGo, Nat.cast_add, Nat.cast_one]
    exact ih _ (i + 1)

theorem mixChain_hex (ops : Chroma) :
    ∀ (t : List String) (h cur : String) (i : Nat),
      ∃ x y z, mixChain ops cur (h :: t) i = rgbToHex x y z := by
  intro t
  induction t with
  | nil =>
    intro h cur i
    exact ⟨_, _, _, rfl⟩
  | cons h2 t2 ih =>
    intro h cur i
    simp only [mixChain]
    exact ih h2 _ (i + 1)

theorem map_const_replicate {α : Type} (l : List α) (q : ℚ) :
    l.map (fun _ => q) = List.replicate l.length q := by
  induction l with
  | nil => rfl
  | cons a l ih => simp [ih, List.replicate_succ]

/-- C3: for two or more colors, mixMultipleColors blends sequentially pairwise
with the weights 1/2, 1/3, ..., its parentColors are the ids of all inputs and
its ratio array is uniform of length n with every entry 1/n. -/
theorem mixMultipleColors_sequential (ops : Chroma) (c : ColorInfo) (rest : List ColorInfo)
    (h1 : 1 ≤ rest.length) :
    ∃ m, mixMultipleColors ops (c :: rest) = .ok m ∧
      m.info.hex = specSequentialBlend ops c rest ∧
      m.parentColors = (c :: rest).map ColorInfo.id ∧
      m.ratio = List.replicate (c :: rest).length (1 / ((c :: rest).length : ℚ)) := by
  match rest with
  | [] => simp at h1
  | [c2] =>
    refine ⟨mixColors ops c c2 (1/2), rfl, ?_, ?_, ?_⟩
    · simp [mixColors, createColorInfo, specSequentialBlend, specBlendGo, Chroma.mixHex]
    · simp [mixColors]
    · simp [mixColors, List.replicate]
      norm_num
  | c2 :: c3 :: t =>
    obtain ⟨x, y, z, hchain⟩ := mixChain_hex ops ((c3 :: t).map ColorInfo.hex) c2.hex c.hex 1
    refine ⟨_, rfl, ?_, ?_, ?_⟩
    · dsimp only
      simp only [List.map_cons] at hchain ⊢
      rw [hchain, hexToRgb_rgbToHex]
      simp only [Option.getD_some, createColorInfo]
      rw [rgbToHex_clamp, ← hchain]
      have heq := mixChain_eq_specBlendGo ops (c2 :: c3 :: t) c.hex 1
      simp only [List.map_cons] at heq
      rw [heq]
      rfl
    · rfl
    · dsimp only
      rw [map_const_replicate]

theorem mixMultipleColors_sequential_witness :
    1 ≤ [colB, colC].length ∧
    ∃ m, mixMultipleColors sampleChroma (colA :: [colB, colC]) = .ok m ∧
      m.info.hex = specSequentialBlend sampleChroma colA [colB, colC] ∧
      m.parentColors = (colA :: [colB, colC]).map ColorInfo.id ∧
      m.ratio = List.replicate (colA :: [colB, colC]).length
        (1 / ((colA :: [colB, colC]).length : ℚ)) :=
  ⟨by decide, mixMultipleColors_sequential sampleChroma colA [colB, colC] (by decide)⟩

theorem wcagLoop_iters_le (contrastFn : String → Option ℚ) (stepFn : String → Option String) :
    ∀ (fuel : Nat) (cur : String) (r : ℚ) (iters : Nat),
      (wcagLoop contrastFn stepFn fuel cur r iters).2.2 ≤ iters + fuel := by
  intro fuel
  induction fuel with
  | zero =>
    intro cur r iters
    simp [wcagLoop]
  | succ f ih =>
    intro cur r iters
    simp only [wcagLoop]
    split
    · split
      · dsimp only; omega
      · split
        · dsimp only; omega
        · split
          · dsimp only; omega
          · split
            · dsimp only; omega
            · exact le_trans (ih _ _ _) (by omega)
    · dsimp only; omega

/-- C1: for every pair of color strings, including foreground equal to
background, the suggestion search of checkWCAGCompliance performs at most 20
brightening updates and at most 20 darkening updates, stops as soon as the
contrast ratio no longer improves, and the suggestions pair is always produced
(the loop outputs for a computable contrast, the bare foreground otherwise). -/
theorem wcag_suggestion_search_bounded (ops : Chroma) (fg bg : String) (r : ℚ) :
    (wcagLoop (fun c => ops.contrast c bg) ops.brighten 20 fg r 0).2.2 ≤ 20 ∧
    (wcagLoop (fun c => ops.contrast c bg) ops.darken 20 fg r 0).2.2 ≤ 20 ∧
    generateWCAGSuggestions ops fg bg r =
      ((wcagLoop (fun c => ops.contrast c bg) ops.brighten 20 fg r 0).1,
       (wcagLoop (fun c => ops.contrast c bg) ops.darken 20 fg r 0).1) ∧
    (∀ (fuel : Nat) (cur : String) (ratio : ℚ) (iters : Nat) (c2 : String) (r2 : ℚ),
      ratio < 9/2 → ops.brighten cur = some c2 → ops.contrast c2 bg = some r2 →
      r2 ≤ ratio →
      wcagLoop (fun c => ops.contrast c bg) ops.brighten (fuel + 1) cur ratio iters
        = (cur, ratio, iters)) ∧
    ((checkWCAGCompliance ops fg bg).suggestions = (fg, fg) ∨
      ∃ cr, ops.contrast fg bg = some cr ∧
        (checkWCAGCompliance ops fg bg).suggestions =
          generateWCAGSuggestions ops fg bg (round2 cr)) := by
  refine ⟨?_, ?_, rfl, ?_, ?_⟩
  · have := wcagLoop_iters_le (fun c => ops.contrast c bg) ops.brighten 20 fg r 0
    omega
  · have := wcagLoop_iters_le (fun c => ops.contrast c bg) ops.darken 20 fg r 0
    omega
  · intro fuel cur ratio iters c2 r2 hlt hstep hc hnoimp
    simp only [wcagLoop, if_pos hlt, hstep, hc, if_pos hnoimp]
  · cases hfg : ops.valid fg with
    | false =>
      left
      simp [checkWCAGCompliance, checkWCAGBody, chromaParse, hfg, createEmptyWCAGResult]
    | true =>
      cases hbg : ops.valid bg with
      | false =>
        left
        simp [checkWCAGCompliance, checkWCAGBody, chromaParse, hfg, hbg, createEmptyWCAGResult]
      | true =>
        cases hc : ops.contrast fg bg with
        | none =>
          left
          simp [checkWCAGCompliance, checkWCAGBody, chromaParse, hfg, hbg, hc,
            createEmptyWCAGResult]
        | some cr =>
          right
          refine ⟨cr, rfl, ?_⟩
          simp [checkWCAGCompliance, checkWCAGBody, chromaParse, hfg, hbg, hc]

theorem wcag_suggestion_search_bounded_witness :
    (wcagLoop (fun c => sampleChroma.contrast c "#000000") sampleChroma.brighten
        20 "#000000" 1 0).2.2 ≤ 20 :=
  (wcag_suggestion_search_bounded sampleChroma "#000000" "#000000" 1).1

/-- C2: when either already-parsed color is one chroma rejects, both Delta E
functions return the fixed penalty 100 and checkWCAGCompliance returns the
fully populated degenerate result with contrast ratio 1.0 and every AA/AAA
flag false; being plain total functions, none of them raises. -/
theorem difference_engine_invalid_sentinel (ops : Chroma) (c1 c2 : String)
    (h : ops.valid c1 = false ∨ ops.valid c2 = false) :
    calculateDeltaE2000 ops c1 c2 = 100 ∧ calculateDeltaE94 ops c1 c2 = 100 ∧
    checkWCAGCompliance ops c1 c2 = createEmptyWCAGResult c1 c2 ∧
    (checkWCAGCompliance ops c1 c2).contrastRatio = 1 ∧
    (checkWCAGCompliance ops c1 c2).aaLevel = (false, false) ∧
    (checkWCAGCompliance ops c1 c2).aaaLevel = (false, false) := by
  have hbody : chromaParse ops c1 = .error () ∨ chromaParse ops c2 = .error () := by
    rcases h with h | h <;> [left; right] <;> simp [chromaParse, h]
  have hw : checkWCAGCompliance ops c1 c2 = createEmptyWCAGResult c1 c2 := by
    rcases hbody with hb | hb <;>
      · cases hp1 : chromaParse ops c1 <;> cases hp2 : chromaParse ops c2 <;>
          simp_all [checkWCAGCompliance, checkWCAGBody]
  refine ⟨?_, ?_, hw, ?_, ?_, ?_⟩
  · rcases hbody with hb | hb <;>
      · cases hp1 : chromaParse ops c1 <;> cases hp2 : chromaParse ops c2 <;>
          simp_all [calculateDeltaE2000, deltaE2000Body, deltaEFallback]
  · rcases hbody with hb | hb <;>
      · cases hp1 : chromaParse ops c1 <;> cases hp2 : chromaParse ops c2 <;>
          simp_all [calculateDeltaE94, deltaE94Body, deltaEFallback]
  · rw [hw]; rfl
  · rw [hw]; rfl
  · rw [hw]; rfl

theorem difference_engine_invalid_sentinel_witness :
    (invalidChroma.valid "not-a-color" = false ∨ invalidChroma.valid "#123456" = false) ∧
    (calculateDeltaE2000 invalidChroma "not-a-color" "#123456" = 100 ∧
     calculateDeltaE94 invalidChroma "not-a-color" "#123456" = 100 ∧
     checkWCAGCompliance invalidChroma "not-a-color" "#123456" =
       createEmptyWCAGResult "not-a-color" "#123456" ∧
     (checkWCAGCompliance invalidChroma "not-a-color" "#123456").contrastRatio = 1 ∧
     (checkWCAGCompliance invalidChroma "not-a-color" "#123456").aaLevel = (false, false) ∧
     (checkWCAGCompliance invalidChroma "not-a-color" "#123456").aaaLevel = (false, false)) :=
  ⟨Or.inl rfl, difference_engine_invalid_sentinel invalidChroma "not-a-color" "#123456"
    (Or.inl rfl)⟩

theorem round2_mono {q r : ℚ} (h : q ≤ r) : round2 q ≤ round2 r := by
  have hf : (⌊q * 100 + 1/2⌋ : ℤ) ≤ ⌊r * 100 + 1/2⌋ := Int.floor_le_floor (by linarith)
  have hc : ((⌊q * 100 + 1/2⌋ : ℤ) : ℚ) ≤ ((⌊r * 100 + 1/2⌋ : ℤ) : ℚ) := Int.cast_le.mpr hf
  unfold round2 jsRound
  have h100 : (0 : ℚ) < 100 := by norm_num
  exact (div_le_div_iff_of_pos_right h100).mpr hc

theorem calculateDeltaE2000_eq (ops : Chroma) (a b : String) (d : ℚ)
    (hv : ops.valid a = true) (hw : ops.valid b = true) (hd : ops.deltaE a b = some d) :
    calculateDeltaE2000 ops a b = round2 d := by
  simp [calculateDeltaE2000, deltaE2000Body, chromaParse, hv, hw, hd]

theorem calculateDeltaE94_eq (ops : Chroma) (a b : String) (d : ℚ)
    (hv : ops.valid a = true) (hw : ops.valid b = true) (hd : ops.deltaE a b = some d) :
    calculateDeltaE94 ops a b = round2 (d * (19/20)) := by
  simp [calculateDeltaE94, deltaE94Body, chromaParse, hv, hw, hd]

/-- C7 amended: on valid colors with a finite nonnegative base distance, the
stricter metric calculateDeltaE94 (the same base distance scaled by the fixed
factor 0.95 before rounding) is at most calculateDeltaE2000, and a strict
calculateDeltaE2000 ordering between two pairs is never reversed by
calculateDeltaE94; because both outputs are rounded to hundredths, a strict
ordering can collapse to a tie, so only this non-strict preservation holds. -/
theorem deltaE94_le_deltaE2000 (ops : Chroma) (a1 b1 a2 b2 : String) (d1 d2 : ℚ)
    (hv1 : ops.valid a1 = true) (hw1 : ops.valid b1 = true)
    (hd1 : ops.deltaE a1 b1 = some d1) (h01 : 0 ≤ d1)
    (hv2 : ops.valid a2 = true) (hw2 : ops.valid b2 = true)
    (hd2 : ops.deltaE a2 b2 = some d2) :
    calculateDeltaE94 ops a1 b1 ≤ calculateDeltaE2000 ops a1 b1 ∧
    (calculateDeltaE2000 ops a1 b1 < calculateDeltaE2000 ops a2 b2 →
      calculateDeltaE94 ops a1 b1 ≤ calculateDeltaE94 ops a2 b2) := by
  rw [calculateDeltaE2000_eq ops a1 b1 d1 hv1 hw1 hd1,
    calculateDeltaE94_eq ops a1 b1 d1 hv1 hw1 hd1,
    calculateDeltaE2000_eq ops a2 b2 d2 hv2 hw2 hd2,
    calculateDeltaE94_eq ops a2 b2 d2 hv2 hw2 hd2]
  constructor
  · exact round2_mono (by linarith)
  · intro hlt
    have hdd : d1 < d2 := by
      by_contra hcon
      push_neg at hcon
      exact absurd hlt (not_lt.mpr (round2_mono (by linarith)))
    exact round2_mono (by linarith)

theorem deltaE94_le_deltaE2000_witness :
    (sampleChroma.valid "#111111" = true ∧ sampleChroma.valid "#222222" = true ∧
     sampleChroma.deltaE "#111111" "#222222" = some 0 ∧ (0 : ℚ) ≤ 0 ∧
     sampleChroma.valid "#333333" = true ∧ sampleChroma.valid "#444444" = true ∧
     sampleChroma.deltaE "#333333" "#444444" = some 0) ∧
    (calculateDeltaE94 sampleChroma "#111111" "#222222" ≤
       calculateDeltaE2000 sampleChroma "#111111" "#222222" ∧
     (calculateDeltaE2000 sampleChroma "#111111" "#222222" <
        calculateDeltaE2000 sampleChroma "#333333" "#444444" →
       calculateDeltaE94 sampleChroma "#111111" "#222222" ≤
         calculateDeltaE94 sampleChroma "#333333" "#444444")) :=
  ⟨⟨rfl, rfl, rfl, le_refl 0, rfl, rfl, rfl⟩,
    deltaE94_le_deltaE2000 sampleChroma "#111111" "#222222" "#333333" "#444444" 0 0
      rfl rfl rfl (le_refl 0) rfl rfl rfl⟩

/-- C7 counterexample: the strict order-preservation direction of the claim
fails; calculateDeltaE2000 ranks the first pair strictly below the second, but
calculateDeltaE94 does not. -/
theorem deltaE_order_preservation_cex :
    calculateDeltaE2000 cexChroma "a" "x" < calculateDeltaE2000 cexChroma "b" "x" ∧
    ¬ calculateDeltaE94 cexChroma "a" "x" < calculateDeltaE94 cexChroma "b" "x" := by
  constructor
  · rw [calculateDeltaE2000_eq cexChroma "a" "x" (13/125) rfl rfl rfl,
      calculateDeltaE2000_eq cexChroma "b" "x" (53/500) rfl rfl rfl]
    norm_num [round2, jsRound]
  · rw [calculateDeltaE94_eq cexChroma "a" "x" (13/125) rfl rfl rfl,
      calculateDeltaE94_eq cexChroma "b" "x" (53/500) rfl rfl rfl]
    norm_num [round2, jsRound]

/-- C9 amended: whenever the chroma hsl of the input reports a nonzero
saturation and a nonzero lightness, every harmony color is the deterministic
hue rotation of the input (complementary +180, triadic +120/+240, tetradic
+90/+180/+270, analogous -30/+30, split-complementary +150/+210, modulo 360)
at the input's own saturation and lightness; when saturation or lightness is
zero the source substitutes 0.5 for it, so the claim fails there. -/
theorem calculateAdvancedHarmony_rotations (ops : Chroma) (c : String)
    (hs : (ops.hslOf c).2.1 ≠ 0) (hl : (ops.hslOf c).2.2 ≠ 0) :
    calculateAdvancedHarmony ops c =
      { complementary := [ops.hslToHex (jsMod ((ops.hslOf c).1.getD 0 + 180) 360)
          (ops.hslOf c).2.1 (ops.hslOf c).2.2]
        triadic := [ops.hslToHex (jsMod ((ops.hslOf c).1.getD 0 + 120) 360)
            (ops.hslOf c).2.1 (ops.hslOf c).2.2,
          ops.hslToHex (jsMod ((ops.hslOf c).1.getD 0 + 240) 360)
            (ops.hslOf c).2.1 (ops.hslOf c).2.2]
        tetradic := [ops.hslToHex (jsMod ((ops.hslOf c).1.getD 0 + 90) 360)
            (ops.hslOf c).2.1 (ops.hslOf c).2.2,
          ops.hslToHex (jsMod ((ops.hslOf c).1.getD 0 + 180) 360)
            (ops.hslOf c).2.1 (ops.hslOf c).2.2,
          ops.hslToHex (jsMod ((ops.hslOf c).1.getD 0 + 270) 360)
            (ops.hslOf c).2.1 (ops.hslOf c).2.2]
        analogous := [ops.hslToHex (jsMod ((ops.hslOf c).1.getD 0 - 30 + 360) 360)
            (ops.hslOf c).2.1 (ops.hslOf c).2.2,
          ops.hslToHex (jsMod ((ops.hslOf c).1.getD 0 + 30) 360)
            (ops.hslOf c).2.1 (ops.hslOf c).2.2]
        splitComplementary := [ops.hslToHex (jsMod ((ops.hslOf c).1.getD 0 + 150) 360)
            (ops.hslOf c).2.1 (ops.hslOf c).2.2,
          ops.hslToHex (jsMod ((ops.hslOf c).1.getD 0 + 210) 360)
            (ops.hslOf c).2.1 (ops.hslOf c).2.2] } := by
  simp [calculateAdvancedHarmony, hs, hl]

theorem calculateAdvancedHarmony_rotations_witness :
    ((sampleChroma.hslOf "#ff0000").2.1 ≠ 0 ∧ (sampleChroma.hslOf "#ff0000").2.2 ≠ 0) ∧
    calculateAdvancedHarmony sampleChroma "#ff0000" =
      { complementary := [sampleChroma.hslToHex
          (jsMod ((sampleChroma.hslOf "#ff0000").1.getD 0 + 180) 360)
          (sampleChroma.hslOf "#ff0000").2.1 (sampleChroma.hslOf "#ff0000").2.2]
        triadic := [sampleChroma.hslToHex
            (jsMod ((sampleChroma.hslOf "#ff0000").1.getD 0 + 120) 360)
            (sampleChroma.hslOf "#ff0000").2.1 (sampleChroma.hslOf "#ff0000").2.2,
          sampleChroma.hslToHex
            (jsMod ((sampleChroma.hslOf "#ff0000").1.getD 0 + 240) 360)
            (sampleChroma.hslOf "#ff0000").2.1 (sampleChroma.hslOf "#ff0000").2.2]
        tetradic := [sampleChroma.hslToHex
            (jsMod ((sampleChroma.hslOf "#ff0000").1.getD 0 + 90) 360)
            (sampleChroma.hslOf "#ff0000").2.1 (sampleChroma.hslOf "#ff0000").2.2,
          sampleChroma.hslToHex
            (jsMod ((sampleChroma.hslOf "#ff0000").1.getD 0 + 180) 360)
            (sampleChroma.hslOf "#ff0000").2.1 (sampleChroma.hslOf "#ff0000").2.2,
          sampleChroma.hslToHex
            (jsMod ((sampleChroma.hslOf "#ff0000").1.getD 0 + 270) 360)
            (sampleChroma.hslOf "#ff0000").2.1 (sampleChroma.hslOf "#ff0000").2.2]
        analogous := [sampleChroma.hslToHex
            (jsMod ((sampleChroma.hslOf "#ff0000").1.getD 0 - 30 + 360) 360)
            (sampleChroma.hslOf "#ff0000").2.1 (sampleChroma.hslOf "#ff0000").2.2,
          sampleChroma.hslToHex
            (jsMod ((sampleChroma.hslOf "#ff0000").1.getD 0 + 30) 360)
            (sampleChroma.hslOf "#ff0000").2.1 (sampleChroma.hslOf "#ff0000").2.2]
        splitComplementary := [sampleChroma.hslToHex
            (jsMod ((sampleChroma.hslOf "#ff0000").1.getD 0 + 150) 360)
            (sampleChroma.hslOf "#ff0000").2.1 (sampleChroma.hslOf "#ff0000").2.2,
          sampleChroma.hslToHex
            (jsMod ((sampleChroma.hslOf "#ff0000").1.getD 0 + 210) 360)
            (sampleChroma.hslOf "#ff0000").2.1 (sampleChroma.hslOf "#ff0000").2.2] } :=
  ⟨⟨by norm_num [sampleChroma], by norm_num [sampleChroma]⟩,
    calculateAdvancedHarmony_rotations sampleChroma "#ff0000"
      (by norm_num [sampleChroma]) (by norm_num [sampleChroma])⟩

/-- C9 counterexample: on an achromatic input (saturation 0) the harmony
colors are not produced at the input's own saturation; the source replaces the
zero saturation by 0.5, so the complementary color differs from the rotation
at the unchanged saturation and lightness. -/
theorem calculateAdvancedHarmony_achromatic_cex :
    (calculateAdvancedHarmony grayChroma "#808080").complementary ≠
      [grayChroma.hslToHex (jsMod ((grayChroma.hslOf "#808080").1.getD 0 + 180) 360)
        (grayChroma.hslOf "#808080").2.1 (grayChroma.hslOf "#808080").2.2] := by
  have h1 : (calculateAdvancedHarmony grayChroma "#808080").complementary = ["sPos"] := by
    norm_num [calculateAdvancedHarmony, grayChroma, sampleChroma]
  have h2 : grayChroma.hslToHex (jsMod ((grayChroma.hslOf "#808080").1.getD 0 + 180) 360)
      (grayChroma.hslOf "#808080").2.1 (grayChroma.hslOf "#808080").2.2 = "s0" := by
    norm_num [grayChroma, sampleChroma]
  rw [h1, h2]
  decide

theorem getD_range_map {α : Type} (f : Nat → α) (n i : Nat) (d : α) (h : i < n) :
    ((List.range n).map f).getD i d = f i := by
  rw [List.getD_eq_getElem?_getD, List.getElem?_map, List.getElem?_range h]
  rfl

/-- C6 amended: for at least two colors and steps at least 1 the generator
returns exactly steps+1 frames, frame 0 stores progress 0 and the last frame
stores progress 1 exactly, and every frame's color is evaluated at a clamped
progress inside [0,1]; the random perturbation is however applied to every
frame's color, endpoints included, so the final frame's color is the blend at
the jittered progress rather than always the exact final blend. -/
theorem generateColorMixingAnimation_frames (ops : Chroma) (rand : Nat → ℚ)
    (colors : List ColorInfo) (steps : Nat) (h2 : 2 ≤ colors.length) (hs : 1 ≤ steps) :
    (generateColorMixingAnimation ops rand colors steps).length = steps + 1 ∧
    ((generateColorMixingAnimation ops rand colors steps).getD 0 ⟨"", 0⟩).progress = 0 ∧
    ((generateColorMixingAnimation ops rand colors steps).getD steps ⟨"", 0⟩).progress = 1 ∧
    ∀ i, i ≤ steps → ∃ t, 0 ≤ t ∧ t ≤ 1 ∧
      ((generateColorMixingAnimation ops rand colors steps).getD i ⟨"", 0⟩).hex
        = colorAtProgress ops colors t := by
  have hnot : ¬ colors.length < 2 := by omega
  have hsz : (steps : ℚ) ≠ 0 := Nat.cast_ne_zero.mpr (by omega)
  unfold generateColorMixingAnimation
  rw [if_neg hnot]
  refine ⟨by simp, ?_, ?_, ?_⟩
  · rw [getD_range_map _ _ _ _ (by omega)]
    show ((0 : Nat) : ℚ) / (steps : ℚ) = 0
    simp
  · rw [getD_range_map _ _ _ _ (by omega)]
    show ((steps : Nat) : ℚ) / (steps : ℚ) = 1
    exact div_self hsz
  · intro i hi
    rw [getD_range_map _ _ _ _ (by omega)]
    refine ⟨max 0 (min 1 ((i : ℚ) / (steps : ℚ) + (rand i - 1/2) * (1/10))),
      le_max_left _ _, ?_, rfl⟩
    exact max_le (by norm_num) (min_le_left _ _)

theorem generateColorMixingAnimation_frames_witness :
    (2 ≤ [colA, colB].length ∧ 1 ≤ 1) ∧
    ((generateColorMixingAnimation sampleChroma (fun _ => 0) [colA, colB] 1).length = 1 + 1 ∧
     ((generateColorMixingAnimation sampleChroma (fun _ => 0) [colA, colB] 1).getD 0
        ⟨"", 0⟩).progress = 0 ∧
     ((generateColorMixingAnimation sampleChroma (fun _ => 0) [colA, colB] 1).getD 1
        ⟨"", 0⟩).progress = 1 ∧
     ∀ i, i ≤ 1 → ∃ t, 0 ≤ t ∧ t ≤ 1 ∧
       ((generateColorMixingAnimation sampleChroma (fun _ => 0) [colA, colB] 1).getD i
          ⟨"", 0⟩).hex = colorAtProgress sampleChroma [colA, colB] t) :=
  ⟨⟨by decide, by decide⟩,
    generateColorMixingAnimation_frames sampleChroma (fun _ => 0) [colA, colB] 1
      (by decide) (by decide)⟩

/-- C6 counterexample: with a random draw of 0 the final frame (stored
progress exactly 1) has its color computed at the jittered progress 0.95, so
the perturbation is applied to the endpoint and the final frame's color is not
the exact unperturbed final blend. -/
theorem animation_endpoint_jitter_cex :
    ((generateColorMixingAnimation animChroma (fun _ => 0) [colA, colB] 1).getD 1
       ⟨"", 0⟩).progress = 1 ∧
    ((generateColorMixingAnimation animChroma (fun _ => 0) [colA, colB] 1).getD 1
       ⟨"", 0⟩).hex ≠ colorAtProgress animChroma [colA, colB] 1 := by
  have hunf : (generateColorMixingAnimation animChroma (fun _ => 0) [colA, colB] 1).getD 1 ⟨"", 0⟩
      = { hex := colorAtProgress animChroma [colA, colB]
            (max 0 (min 1 (((1 : Nat) : ℚ) / ((1 : Nat) : ℚ) + ((0 : ℚ) - 1/2) * (1/10)))),
          progress := ((1 : Nat) : ℚ) / ((1 : Nat) : ℚ) } := by
    unfold generateColorMixingAnimation
    rw [if_neg (by decide), getD_range_map _ _ _ _ (by omega)]
  rw [hunf]
  have ht : max 0 (min 1 (((1 : Nat) : ℚ) / ((1 : Nat) : ℚ) + ((0 : ℚ) - 1/2) * (1/10)))
      = 19/20 := by
    norm_num
  constructor
  · show ((1 : Nat) : ℚ) / ((1 : Nat) : ℚ) = 1
    norm_num
  · show colorAtProgress animChroma [colA, colB]
        (max 0 (min 1 (((1 : Nat) : ℚ) / ((1 : Nat) : ℚ) + ((0 : ℚ) - 1/2) * (1/10))))
        ≠ colorAtProgress animChroma [colA, colB] 1
    rw [ht]
    have h95 : colorAtProgress animChroma [colA, colB] (19/20) = rgbToHex 95 0 0 := by
      norm_num [colorAtProgress, Chroma.mixHex, animChroma, sampleChroma]
      rfl
    have h100 : colorAtProgress animChroma [colA, colB] 1 = rgbToHex 100 0 0 := by
      norm_num [colorAtProgress, Chroma.mixHex, animChroma, sampleChroma]
      rfl
    rw [h95, h100]
    decide

/-- C10 amended: with fewer than two colors the animation generator silently
returns a single frame of progress 1 instead of failing the way the mixing
operation does; the frame's hex is the first color's hex only when that hex is
a non-empty string, because the JavaScript fallback expression also replaces
an empty-string hex by the default black. -/
theorem generateColorMixingAnimation_fallback (ops : Chroma) (rand : Nat → ℚ)
    (steps : Nat) (colors : List ColorInfo) (h : colors.length < 2) :
    (colors = [] →
      generateColorMixingAnimation ops rand colors steps =
        [{ hex := "#000000", progress := 1 }]) ∧
    (∀ c, colors = [c] → c.hex ≠ "" →
      generateColorMixingAnimation ops rand colors steps =
        [{ hex := c.hex, progress := 1 }]) ∧
    (∀ c, colors = [c] → c.hex = "" →
      generateColorMixingAnimation ops rand colors steps =
        [{ hex := "#000000", progress := 1 }]) ∧
    mixMultipleColors ops colors = .error "2色以上の色が必要です" := by
  refine ⟨?_, ?_, ?_, ?_⟩
  · rintro rfl
    rfl
  · rintro c rfl hne
    simp [generateColorMixingAnimation, jsOrDefault, hne]
  · rintro c rfl he
    simp [generateColorMixingAnimation, jsOrDefault, he]
  · match colors, h with
    | [], _ => rfl
    | [c], _ => rfl

theorem generateColorMixingAnimation_fallback_witness :
    [colA].length < 2 ∧
    ((([colA] : List ColorInfo) = [] →
       generateColorMixingAnimation sampleChroma (fun _ => 0) [colA] 3 =
         [{ hex := "#000000", progress := 1 }]) ∧
     (∀ c, ([colA] : List ColorInfo) = [c] → c.hex ≠ "" →
       generateColorMixingAnimation sampleChroma (fun _ => 0) [colA] 3 =
         [{ hex := c.hex, progress := 1 }]) ∧
     (∀ c, ([colA] : List ColorInfo) = [c] → c.hex = "" →
       generateColorMixingAnimation sampleChroma (fun _ => 0) [colA] 3 =
         [{ hex := "#000000", progress := 1 }]) ∧
     mixMultipleColors sampleChroma [colA] = .error "2色以上の色が必要です") :=
  ⟨by decide,
    generateColorMixingAnimation_fallback sampleChroma (fun _ => 0) 3 [colA] (by decide)⟩

/-- C10 counterexample: for a single color whose hex is the empty string the
single fallback frame carries the default black, not the first color's hex, so
the claim's description of the frame fails on that input. -/
theorem animation_fallback_emptyhex_cex :
    generateColorMixingAnimation sampleChroma (fun _ => 0) [emptyHexColor] 3 =
      [{ hex := "#000000", progress := 1 }] ∧ emptyHexColor.hex ≠ "#000000" := by
  exact ⟨rfl, by decide⟩
